import Mathlib

/-!
# Verification of `bplim-utils` (BPLIM/bplim-utils)

A shallow embedding of `src/bplim_utils/logger.py` (classes `DualOutput` and
`BPLIMLogger`) and `src/bplim_utils/runner.py` (function `run_script`),
together with theorems settling the specification claims.

Modelling conventions:
* Python stream objects are modelled by the inductive `StreamObj`; a `Nat`
  identifier gives each object a reference identity (Python `is`).
* Observable side effects (file writes, console writes, flushes, file
  open/close) are recorded as an explicit event list `List Ev`.
* A raised Python exception is an `Option LoggerErr` result component
  (`none` = normal return).
* `datetime.now()` is modelled by passing the current `DateTime` value as an
  explicit argument to every operation that reads the clock; the two
  `strftime` format strings used by the source are implemented concretely.
* `os.path.abspath` depends on the process working directory, so it is passed
  as an uninterpreted function argument `abspath : String → String`.
* Python `str.strip()` truthiness (`message.strip()`) is modelled by
  `hasNonWs`: the string contains at least one non-whitespace character
  (whitespace = the ASCII whitespace characters).
-/

namespace BplimUtils

/-- A calendar timestamp, standing for a Python `datetime` value. -/
structure DateTime where
  year : Nat
  month : Nat
  day : Nat
  hour : Nat
  minute : Nat
  second : Nat
deriving DecidableEq

/-- Zero-pad a natural number to two digits, as `strftime` does for
`%d`, `%m`, `%H`, `%M`, `%S`. -/
def pad2 (n : Nat) : String :=
  if n < 10 then "0" ++ toString n else toString n

/-- Zero-pad a year to four digits, as `strftime` does for `%Y`. -/
def pad4 (n : Nat) : String :=
  if n < 10 then "000" ++ toString n
  else if n < 100 then "00" ++ toString n
  else if n < 1000 then "0" ++ toString n
  else toString n

/-- English month abbreviation used by `strftime` `%b` (months 1–12;
other inputs, which a real `datetime` cannot hold, map to `""`). -/
def monthAbbrev : Nat → String
  | 1 => "Jan" | 2 => "Feb" | 3 => "Mar" | 4 => "Apr"
  | 5 => "May" | 6 => "Jun" | 7 => "Jul" | 8 => "Aug"
  | 9 => "Sep" | 10 => "Oct" | 11 => "Nov" | 12 => "Dec"
  | _ => ""

/-- Python `datetime.now().strftime('%Y-%m-%d %H:%M:%S')` — the timestamp format
used by `DualOutput.write` (logger.py line 43). -/
def strftimeYmdHMS (t : DateTime) : String :=
  pad4 t.year ++ "-" ++ pad2 t.month ++ "-" ++ pad2 t.day ++ " " ++
    pad2 t.hour ++ ":" ++ pad2 t.minute ++ ":" ++ pad2 t.second

/-- Python `datetime.now().strftime('%d %b %Y, %H:%M:%S')` — the timestamp format
used by `BPLIMLogger._build_status_message` (logger.py line 151). -/
def strftimeBanner (t : DateTime) : String :=
  pad2 t.day ++ " " ++ monthAbbrev t.month ++ " " ++ pad4 t.year ++ ", " ++
    pad2 t.hour ++ ":" ++ pad2 t.minute ++ ":" ++ pad2 t.second

/-- ASCII whitespace, the characters stripped by Python `str.strip()`. -/
def isPyWs (c : Char) : Bool :=
  c = ' ' || c = '\t' || c = '\n' || c = '\r' || c = '\x0b' || c = '\x0c'

/-- Truthiness of `message.strip()`: `message` contains at least one
non-whitespace character. -/
def hasNonWs (s : String) : Bool :=
  s.data.any (fun c => !(isPyWs c))

/-- A Python stream object.  `base n` is an ordinary stream (such as the
process's original `sys.stdout`); `dual id file stream is_stdout` is a
`DualOutput` instance (logger.py lines 15–59) holding `self.file` (a file
handle, or `none` when constructed with `file=None`), `self.stream`
(the passthrough stream) and `self.is_stdout`.  The `Nat` identifier gives
reference identity. -/
inductive StreamObj where
  | base : Nat → StreamObj
  | dual : Nat → Option Nat → StreamObj → Bool → StreamObj
deriving DecidableEq

/-- An observable I/O event. -/
inductive Ev where
  /-- Python `stream.write(text)` on the ordinary stream with identity `n`. -/
  | writeStream : Nat → String → Ev
  /-- Python `stream.flush()` on the ordinary stream with identity `n`. -/
  | flushStream : Nat → Ev
  /-- Python `file.write(text)` on the file handle `h`. -/
  | writeFile : Nat → String → Ev
  /-- Python `file.flush()` on the file handle `h`. -/
  | flushFile : Nat → Ev
  /-- Python `open(path, mode)` returning the fresh handle `h`; the `Bool` is the
  append flag (`True` ⇒ mode `"a"`, `False` ⇒ mode `"w"`). -/
  | openFile : String → Bool → Nat → Ev
  /-- Python `file.close()` on the file handle `h`. -/
  | closeFile : Nat → Ev
deriving DecidableEq

/-- A raised Python exception. -/
inductive LoggerErr where
  /-- Python `LogOpenedError` (logger.py lines 8–12), carrying
  `BPLIMLogger._active_logger_path` at raise time. -/
  | logOpened : Option String → LoggerErr
  /-- Python `Exception("BPLIMLogger: This logger has already been initialized.")`
  (logger.py line 197). -/
  | alreadyInit : LoggerErr
  /-- Python `AttributeError` from calling `.write`/`.flush`/`.close` on `None`. -/
  | attrNone : LoggerErr
deriving DecidableEq

/-- Python `DualOutput.write(message)` (logger.py lines 35–52), extended
structurally to any stream object: writing to a `base` stream emits a single
console write; writing to a `dual` computes the possibly timestamped
`formatted_message`, writes `message` unmodified to the passthrough stream,
then writes `formatted_message` to the file and flushes it.  A `dual` whose
file is `none` raises `AttributeError` after the passthrough write.
Returns the events emitted so far together with the raised exception,
if any. -/
def streamWrite : StreamObj → String → DateTime → List Ev × Option LoggerErr
  | .base n, msg, _ => ([.writeStream n msg], none)
  | .dual _ file passthrough isStdout, msg, now =>
    let formatted :=
      if isStdout && hasNonWs msg then
        msg ++ "\n[" ++ strftimeYmdHMS now ++ "]\n"
      else
        msg
    let (evs, err) := streamWrite passthrough msg now
    match err with
    | some e => (evs, some e)
    | none =>
      match file with
      | none => (evs, some .attrNone)
      | some h => (evs ++ [.writeFile h formatted, .flushFile h], none)

/-- Python `DualOutput.flush()` (logger.py lines 54–59), extended structurally to
any stream object: flush the passthrough stream, then flush the file. -/
def streamFlush : StreamObj → List Ev × Option LoggerErr
  | .base n => ([.flushStream n], none)
  | .dual _ file passthrough _ =>
    let (evs, err) := streamFlush passthrough
    match err with
    | some e => (evs, some e)
    | none =>
      match file with
      | none => (evs, some .attrNone)
      | some h => (evs ++ [.flushFile h], none)

/-- One `BPLIMLogger` instance (logger.py lines 62–260): the fields set by
`__init__` (lines 105–113).  `current_log` is the open file handle
(`self._current_log`), `none` before `init()` has run. -/
structure Logger where
  log_file : String
  append : Bool
  is_closed : Bool
  is_on : Bool
  original_stdout : StreamObj
  original_stderr : StreamObj
  current_log : Option Nat
deriving DecidableEq

/-- The process-wide mutable state: the `sys.stdout`/`sys.stderr` slots, the
set of constructed `BPLIMLogger` instances (referenced by their index, which
models Python object identity), a fresh-identifier allocator for file handles
and `DualOutput` objects, and the class attributes
`BPLIMLogger._active_logger` / `BPLIMLogger._active_logger_path`
(lines 78–79). -/
structure World where
  stdout : StreamObj
  stderr : StreamObj
  loggers : List Logger
  nextId : Nat
  activeLogger : Option Nat
  activeLoggerPath : Option String
deriving DecidableEq

/-- Look a logger instance up by its identity. -/
def World.getL (w : World) (i : Nat) : Option Logger :=
  w.loggers.get? i

/-- Update the logger instance with identity `i` (in-place mutation of the
Python object). -/
def World.setL (w : World) (i : Nat) (lg : Logger) : World :=
  { w with loggers := w.loggers.set i lg }

/-- A process state before any logger exists: original stdout and stderr are
the ordinary streams `0` and `1`, no instance constructed, slot free. -/
def initWorld : World :=
  { stdout := .base 0
    stderr := .base 1
    loggers := []
    nextId := 2
    activeLogger := none
    activeLoggerPath := none }

/-- Python `BPLIMLogger.__init__(log_file, append)` (logger.py lines 81–117):
raise `LogOpenedError(BPLIMLogger._active_logger_path)` if an active logger
exists and its `_is_closed` is false; otherwise record the parameters, start
with `_is_closed = True` and `_is_on = False`, save the current
`sys.stdout`/`sys.stderr`, and claim the active-logger slot, recording
`os.path.abspath(log_file)`.  Returns the new world and the identity of the
fresh instance. -/
def pyConstruct (abspath : String → String) (w : World) (log_file : String)
    (append : Bool) : Except LoggerErr (World × Nat) :=
  let conflict :=
    match w.activeLogger with
    | none => false
    | some i =>
      match w.getL i with
      | none => false
      | some lg => !lg.is_closed
  if conflict then
    .error (.logOpened w.activeLoggerPath)
  else
    let lg : Logger :=
      { log_file := log_file
        append := append
        is_closed := true
        is_on := false
        original_stdout := w.stdout
        original_stderr := w.stderr
        current_log := none }
    let i := w.loggers.length
    .ok ({ w with
            loggers := w.loggers ++ [lg]
            activeLogger := some i
            activeLoggerPath := some (abspath log_file) }, i)

/-- Python `BPLIMLogger._build_status_message(action)` (logger.py lines 119–154):
the multi-line status banner.  The indent before `"log"` is taken from
`indent_map` (`"resumed"` ↦ 8, the three other known actions ↦ 7, with 7 as
the fallback for unrecognized actions). -/
def buildStatusMessage (abspath : String → String) (lg : Logger)
    (action : String) (now : DateTime) : String :=
  let base_indent := if action = "resumed" then 8 else 7
  let prefix_log := String.mk (List.replicate base_indent ' ')
  let prefix_action := " " ++ action
  "\n" ++ String.mk (List.replicate 130 '-') ++ "\n" ++
    prefix_log ++ "log:  " ++ abspath lg.log_file ++ "\n" ++
    prefix_action ++ " on:  " ++ strftimeBanner now ++ "\n" ++
    String.mk (List.replicate 130 '-') ++ "\n\n"

/-- Python `BPLIMLogger._write_status(message)` (logger.py lines 156–170): if
`self._current_log` is truthy (a file object), write the message to it and
flush; then write the message to `self._original_stdout` and flush it. -/
def pyWriteStatus (lg : Logger) (msg : String) (now : DateTime) :
    List Ev × Option LoggerErr :=
  let fileEvs : List Ev :=
    match lg.current_log with
    | some h => [.writeFile h msg, .flushFile h]
    | none => []
  let (sEvs, err) := streamWrite lg.original_stdout msg now
  match err with
  | some e => (fileEvs ++ sEvs, some e)
  | none =>
    let (fEvs, err2) := streamFlush lg.original_stdout
    (fileEvs ++ sEvs ++ fEvs, err2)

/-- Python `BPLIMLogger._redirect_streams()` (logger.py lines 172–177): install two
fresh `DualOutput` objects as `sys.stdout` (with `is_stdout=True`) and
`sys.stderr` (with `is_stdout=False`), both wrapping `self._current_log` and
the respective saved original stream. -/
def redirectStreams (w : World) (lg : Logger) : World :=
  { w with
      stdout := .dual w.nextId lg.current_log lg.original_stdout true
      stderr := .dual (w.nextId + 1) lg.current_log lg.original_stderr false
      nextId := w.nextId + 2 }

/-- Python `BPLIMLogger._restore_streams()` (logger.py lines 179–184): put the
saved original streams back into the `sys.stdout`/`sys.stderr` slots. -/
def restoreStreams (w : World) (lg : Logger) : World :=
  { w with stdout := lg.original_stdout, stderr := lg.original_stderr }

/-- Python `print(s)` with default arguments: two write calls on the current
`sys.stdout`, first `s`, then the line terminator. -/
def pyPrint (w : World) (s : String) (now : DateTime) :
    List Ev × Option LoggerErr :=
  let (evs1, err1) := streamWrite w.stdout s now
  match err1 with
  | some e => (evs1, some e)
  | none =>
    let (evs2, err2) := streamWrite w.stdout "\n" now
    (evs1 ++ evs2, err2)

/-- Python `BPLIMLogger.init()` (logger.py lines 186–208): raise if
`self._is_closed` is false; otherwise open the log file (mode `"a"` when
appending, else `"w"`), write the `"opened"` banner via `_write_status`,
redirect the streams, and set `_is_closed = False`, `_is_on = True`.
An exception raised while writing the banner propagates before the streams
are redirected or the flags are set. -/
def pyInit (abspath : String → String) (w : World) (i : Nat) (now : DateTime) :
    World × List Ev × Option LoggerErr :=
  match w.getL i with
  | none => (w, [], none)
  | some lg =>
    if !lg.is_closed then
      (w, [], some .alreadyInit)
    else
      let h := w.nextId
      let lg1 := { lg with current_log := some h }
      let w1 := { w.setL i lg1 with nextId := w.nextId + 1 }
      let openEv : List Ev := [.openFile lg.log_file lg.append h]
      let msg := buildStatusMessage abspath lg1 "opened" now
      let (evs, err) := pyWriteStatus lg1 msg now
      match err with
      | some e => (w1, openEv ++ evs, some e)
      | none =>
        let w2 := redirectStreams w1 lg1
        let lg2 := { lg1 with is_closed := false, is_on := true }
        (w2.setL i lg2, openEv ++ evs, none)

/-- Python `BPLIMLogger.on()` (logger.py lines 210–222): if already on, print
`"Log file already on"` and return; otherwise write the `"resumed"` banner,
redirect the streams and set `_is_on = True`. -/
def pyOn (abspath : String → String) (w : World) (i : Nat) (now : DateTime) :
    World × List Ev × Option LoggerErr :=
  match w.getL i with
  | none => (w, [], none)
  | some lg =>
    if lg.is_on then
      let (evs, err) := pyPrint w "Log file already on" now
      (w, evs, err)
    else
      let msg := buildStatusMessage abspath lg "resumed" now
      let (evs, err) := pyWriteStatus lg msg now
      match err with
      | some e => (w, evs, some e)
      | none =>
        let w1 := redirectStreams w lg
        (w1.setL i { lg with is_on := true }, evs, none)

/-- Python `BPLIMLogger.off()` (logger.py lines 224–236): if already off, print
`"Log file already off"` and return; otherwise write the `"paused"` banner,
restore the original streams and set `_is_on = False`. -/
def pyOff (abspath : String → String) (w : World) (i : Nat) (now : DateTime) :
    World × List Ev × Option LoggerErr :=
  match w.getL i with
  | none => (w, [], none)
  | some lg =>
    if !lg.is_on then
      let (evs, err) := pyPrint w "Log file already off" now
      (w, evs, err)
    else
      let msg := buildStatusMessage abspath lg "paused" now
      let (evs, err) := pyWriteStatus lg msg now
      match err with
      | some e => (w, evs, some e)
      | none =>
        let w1 := restoreStreams w lg
        (w1.setL i { lg with is_on := false }, evs, none)

/-- Python `BPLIMLogger.close()` (logger.py lines 238–260): return immediately if
`self._is_closed`; otherwise write the `"closed"` banner, close the file
handle, restore the original streams, set `_is_closed = True`,
`_is_on = False`, and release the active-logger slot when this instance
holds it. -/
def pyClose (abspath : String → String) (w : World) (i : Nat) (now : DateTime) :
    World × List Ev × Option LoggerErr :=
  match w.getL i with
  | none => (w, [], none)
  | some lg =>
    if lg.is_closed then
      (w, [], none)
    else
      let msg := buildStatusMessage abspath lg "closed" now
      let (evs, err) := pyWriteStatus lg msg now
      match err with
      | some e => (w, evs, some e)
      | none =>
        match lg.current_log with
        | none => (w, evs, some .attrNone)
        | some h =>
          let w1 := restoreStreams w lg
          let w2 := w1.setL i { lg with is_closed := true, is_on := false }
          let w3 :=
            if w2.activeLogger = some i then
              { w2 with activeLogger := none, activeLoggerPath := none }
            else
              w2
          (w3, evs ++ [.closeFile h], none)

/-- The spec's state machine, read off a `Logger`'s fields: `__init__`
leaves `_is_closed = True` with no file handle (Uninitialized); `init()`
sets `_is_closed = False, _is_on = True` (Active); `off()`/`on()` toggle
`_is_on` (Paused/Active); `close()` sets `_is_closed = True` leaving the
handle reference behind (Closed). -/
inductive LState where
  | uninitialized
  | active
  | paused
  | closed
deriving DecidableEq

/-- Map a `Logger`'s flags to the spec's four states. -/
def loggerState (lg : Logger) : LState :=
  if lg.is_closed then
    (if lg.current_log = none then .uninitialized else .closed)
  else if lg.is_on then .active
  else .paused

/-- A stream on which `.write`/`.flush` cannot raise: an ordinary stream, or
a `DualOutput` whose file is present and whose passthrough is writable. -/
def writableStream : StreamObj → Bool
  | .base _ => true
  | .dual _ file passthrough _ => file.isSome && writableStream passthrough

/-- Events that open or close a file handle. -/
def isFileLifecycleEv : Ev → Bool
  | .openFile _ _ _ => true
  | .closeFile _ => true
  | _ => false

/-- The `Logger` record produced by a successful `BPLIMLogger.__init__` in
world `w0`. -/
def freshLogger (w0 : World) (path : String) (app : Bool) : Logger :=
  { log_file := path
    append := app
    is_closed := true
    is_on := false
    original_stdout := w0.stdout
    original_stderr := w0.stderr
    current_log := none }

/-- Run a finite sequence of `on()`/`off()` calls on instance `i`
(`true` = `on()`, `false` = `off()`, each with its own clock reading),
stopping at the first raised exception. -/
def runToggles (abspath : String → String) :
    World → Nat → List (Bool × DateTime) → World × Option LoggerErr
  | w, _, [] => (w, none)
  | w, i, (b, t) :: rest =>
    let (w1, _, err) := if b then pyOn abspath w i t else pyOff abspath w i t
    match err with
    | some e => (w1, some e)
    | none => runToggles abspath w1 i rest

/-- Invariant holding between `init()` and `close()` on instance `i`: the
instance is not closed, owns the file handle `h`, saved ordinary original
streams `a`/`b`, and the current `sys.stdout` is writable. -/
def LoggerInv (w : World) (i : Nat) (h a b : Nat) : Prop :=
  ∃ lg, w.getL i = some lg ∧ lg.is_closed = false ∧ lg.current_log = some h ∧
    lg.original_stdout = .base a ∧ lg.original_stderr = .base b ∧
    writableStream w.stdout = true

/-- A fixed clock reading used by concrete evaluations. -/
def sampleTime : DateTime :=
  { year := 2024, month := 3, day := 5, hour := 10, minute := 20, second := 30 }

/-- A sample logger record used by concrete evaluations. -/
def sampleLogger : Logger :=
  { log_file := "/tmp/run.log"
    append := false
    is_closed := false
    is_on := true
    original_stdout := .base 0
    original_stderr := .base 1
    current_log := some 2 }

/-- World after `BPLIMLogger("a.log")` in a fresh process. -/
def c1World : World :=
  ((pyConstruct id initWorld "a.log" false).toOption.getD (initWorld, 0)).1

/-- World after `BPLIMLogger("log.txt")` in a fresh process. -/
def c2w1 : World :=
  ((pyConstruct id initWorld "log.txt" false).toOption.getD (initWorld, 0)).1

/-- World after `init()` on the instance of `c2w1`. -/
def c2w2 : World := (pyInit id c2w1 0 sampleTime).1

/-- World after `close()` on the instance of `c2w2`. -/
def c2w3 : World := (pyClose id c2w2 0 sampleTime).1

/-- World after `init()` on the instance of `c1World`: logger `0` Active. -/
def activeWorld : World := (pyInit id c1World 0 sampleTime).1

/-- World after `close()` on the instance of `activeWorld`. -/
def closedWorld : World := (pyClose id activeWorld 0 sampleTime).1

/-- The Active logger record held by `activeWorld`. -/
def activeL : Logger :=
  { log_file := "a.log"
    append := false
    is_closed := false
    is_on := true
    original_stdout := .base 0
    original_stderr := .base 1
    current_log := some 2 }

/-- The Closed logger record held by `c2w3`. -/
def closedL : Logger :=
  { log_file := "log.txt"
    append := false
    is_closed := true
    is_on := false
    original_stdout := .base 0
    original_stderr := .base 1
    current_log := some 2 }

/-- The Uninitialized logger record held by `c1World`. -/
def uninitL : Logger :=
  { log_file := "a.log"
    append := false
    is_closed := true
    is_on := false
    original_stdout := .base 0
    original_stderr := .base 1
    current_log := none }

/-- World after `off()` on the instance of `activeWorld`: logger `0`
Paused. -/
def pausedWorld : World := (pyOff id activeWorld 0 sampleTime).1

/-- The Paused logger record held by `pausedWorld`. -/
def pausedL : Logger :=
  { log_file := "a.log"
    append := false
    is_closed := false
    is_on := false
    original_stdout := .base 0
    original_stderr := .base 1
    current_log := some 2 }

/-!
## The script runner (`src/bplim_utils/runner.py`)
-/

/-- A Python value held in a namespace binding: `pyNone` is Python `None`,
`str` a string, and `obj` any other object (identified by a tag). -/
inductive Val where
  | pyNone : Val
  | str : String → Val
  | obj : Nat → Val
deriving DecidableEq

/-- A Python globals dict, modelled as an association list without duplicate
keys (the operations below keep at most one binding per key). -/
def Namespace := List (String × Val)

/-- Dict membership lookup: the value bound to `key`, if any. -/
def nsLookup : Namespace → String → Option Val
  | [], _ => none
  | (k, v) :: rest, key => if k = key then some v else nsLookup rest key

/-- Remove every binding of `key` (`dict.pop(key, None)` discarding the
result). -/
def nsErase (ns : Namespace) (key : String) : Namespace :=
  ns.filter (fun p => !(p.1 = key))

/-- Python `dict[key] = v`. -/
def nsSet (ns : Namespace) (key : String) (v : Val) : Namespace :=
  (key, v) :: nsErase ns key

/-- Python `dict.get(key)`: the bound value, or Python `None` when absent. -/
def nsGet (ns : Namespace) (key : String) : Val :=
  (nsLookup ns key).getD .pyNone

/-- The namespace the compiled script executes against (runner.py lines
35–36): the caller's globals with `__file__` set to the absolute script path
and `__name__` set to `"__main__"`. -/
def preparedNs (abspath : String → String) (script_path : String)
    (ns : Namespace) : Namespace :=
  nsSet (nsSet ns "__file__" (.str (abspath script_path))) "__name__"
    (.str "__main__")

/-- Restoration of one marker in the `finally` block (runner.py lines
42–50): put the captured old value back when it was not `None`, else pop the
key. -/
def restoreKey (m : Namespace) (key : String) (old : Val) : Namespace :=
  if old = Val.pyNone then nsErase m key else nsSet m key old

/-- Python `run_script(script_path)` (runner.py lines 7–50).  The executed script is
modelled as a function from the namespace it receives to the namespace it
leaves behind (since `exec` mutates `caller_globals` in place) together with
the exception it raises, if any.  `run_script` captures
`caller_globals.get("__file__")` and `.get("__name__")` (Python `None` when
absent), overrides both markers, runs the script, and in the `finally` block
restores first `__file__` and then `__name__`, popping a marker whose
captured old value was `None`; the script's exception, if any, is re-raised
unchanged after restoration. -/
def pyRunScript {E : Type} (abspath : String → String) (script_path : String)
    (script : Namespace → Namespace × Option E) (ns : Namespace) :
    Namespace × Option E :=
  let old_file := nsGet ns "__file__"
  let old_name := nsGet ns "__name__"
  let (ns2, err) := script (preparedNs abspath script_path ns)
  (restoreKey (restoreKey ns2 "__file__" old_file) "__name__" old_name, err)

/-!
## Helper lemmas
-/

theorem getL_isLt {w : World} {i : Nat} {lg : Logger} (hg : w.getL i = some lg) :
    i < w.loggers.length := by
  rw [World.getL] at hg
  exact (List.get?_eq_some.mp hg).1

theorem getL_setL_self {w : World} {i : Nat} {lg : Logger} (lg' : Logger)
    (hg : w.getL i = some lg) : (w.setL i lg').getL i = some lg' := by
  have hi := getL_isLt hg
  simp only [World.getL, World.setL, List.get?_eq_getElem?]
  exact List.getElem?_set_eq_of_lt _ hi

theorem writable_streamWrite (s : StreamObj) (msg : String) (now : DateTime)
    (hw : writableStream s = true) : (streamWrite s msg now).2 = none := by
  induction s with
  | base n => simp [streamWrite]
  | dual d file passthrough isStdout ih =>
    simp only [writableStream, Bool.and_eq_true, Option.isSome_iff_exists] at hw
    obtain ⟨⟨h, hfile⟩, hpass⟩ := hw
    have := ih hpass
    simp only [streamWrite, hfile]
    rcases hsw : streamWrite passthrough msg now with ⟨evs, err⟩
    rw [hsw] at this
    simp at this
    subst this
    simp

theorem writable_pyPrint (w : World) (s : String) (now : DateTime)
    (hw : writableStream w.stdout = true) : (pyPrint w s now).2 = none := by
  simp only [pyPrint]
  rcases h1 : streamWrite w.stdout s now with ⟨evs1, err1⟩
  have e1 := writable_streamWrite w.stdout s now hw
  rw [h1] at e1
  simp at e1
  subst e1
  rcases h2 : streamWrite w.stdout "\n" now with ⟨evs2, err2⟩
  have e2 := writable_streamWrite w.stdout "\n" now hw
  rw [h2] at e2
  simp at e2
  subst e2
  simp

theorem nsLookup_nsErase_self (ns : Namespace) (key : String) :
    nsLookup (nsErase ns key) key = none := by
  induction ns with
  | nil => rfl
  | cons p rest ih =>
    by_cases hk : p.1 = key
    · simpa [nsErase, hk] using ih
    · simpa [nsErase, nsLookup, hk] using ih

theorem nsLookup_nsErase_ne (ns : Namespace) (key key' : String)
    (hne : key ≠ key') : nsLookup (nsErase ns key) key' = nsLookup ns key' := by
  induction ns with
  | nil => rfl
  | cons p rest ih =>
    obtain ⟨k, v⟩ := p
    by_cases hk : k = key
    · subst hk
      have h1 : nsErase ((k, v) :: rest) k = nsErase rest k := by
        simp [nsErase]
      have h2 : nsLookup ((k, v) :: rest) key' = nsLookup rest key' := by
        simp [nsLookup, hne]
      rw [h1, h2]
      exact ih
    · have h1 : nsErase ((k, v) :: rest) key = (k, v) :: nsErase rest key := by
        simp [nsErase, hk]
      rw [h1]
      by_cases hk' : k = key'
      · simp [nsLookup, hk']
      · simp [nsLookup, hk', ih]

theorem nsLookup_nsSet_self (ns : Namespace) (key : String) (v : Val) :
    nsLookup (nsSet ns key v) key = some v := by
  simp [nsSet, nsLookup]

theorem nsLookup_nsSet_ne (ns : Namespace) (key key' : String) (v : Val)
    (hne : key ≠ key') :
    nsLookup (nsSet ns key v) key' = nsLookup ns key' := by
  simp [nsSet, nsLookup, hne, nsLookup_nsErase_ne ns key key' hne]

theorem nsLookup_restoreKey_self (m : Namespace) (key : String) (old : Val) :
    nsLookup (restoreKey m key old) key =
      if old = Val.pyNone then none else some old := by
  by_cases h : old = Val.pyNone
  · simp [restoreKey, h, nsLookup_nsErase_self]
  · simp [restoreKey, h, nsLookup_nsSet_self]

theorem nsLookup_restoreKey_ne (m : Namespace) (key key' : String) (old : Val)
    (hne : key ≠ key') :
    nsLookup (restoreKey m key old) key' = nsLookup m key' := by
  by_cases h : old = Val.pyNone
  · simp [restoreKey, h, nsLookup_nsErase_ne m key key' hne]
  · simp [restoreKey, h, nsLookup_nsSet_ne m key key' old hne]

theorem get?_append_length {α : Type} (l : List α) (x : α) :
    (l ++ [x]).get? l.length = some x := by
  induction l with
  | nil => rfl
  | cons y ys ih => simpa using ih

theorem construct_fresh (abspath : String → String) (w0 : World)
    (path : String) (app : Bool) (ha : w0.activeLogger = none) :
    pyConstruct abspath w0 path app =
      .ok ({ w0 with
              loggers := w0.loggers ++ [freshLogger w0 path app]
              activeLogger := some w0.loggers.length
              activeLoggerPath := some (abspath path) },
           w0.loggers.length) := by
  simp [pyConstruct, ha, freshLogger]

theorem get?_set_self {α : Type} (l : List α) (i : Nat) (x y : α)
    (h : l.get? i = some x) : (l.set i y).get? i = some y := by
  have hi : i < l.length := (List.get?_eq_some.mp h).1
  simp only [List.get?_eq_getElem?]
  exact List.getElem?_set_eq_of_lt _ hi

theorem pyOn_noop (abspath : String → String) (w : World) (i : Nat)
    (lg : Logger) (now : DateTime) (hg : w.getL i = some lg)
    (hon : lg.is_on = true) :
    pyOn abspath w i now =
      (w, (pyPrint w "Log file already on" now).1,
       (pyPrint w "Log file already on" now).2) := by
  rcases hp : pyPrint w "Log file already on" now with ⟨evs, err⟩
  simp [pyOn, hg, hon, hp]

theorem pyOff_noop (abspath : String → String) (w : World) (i : Nat)
    (lg : Logger) (now : DateTime) (hg : w.getL i = some lg)
    (hon : lg.is_on = false) :
    pyOff abspath w i now =
      (w, (pyPrint w "Log file already off" now).1,
       (pyPrint w "Log file already off" now).2) := by
  rcases hp : pyPrint w "Log file already off" now with ⟨evs, err⟩
  simp [pyOff, hg, hon, hp]

theorem pyOn_swap (abspath : String → String) (w : World) (i : Nat)
    (lg : Logger) (now : DateTime) (hh a : Nat)
    (hg : w.getL i = some lg) (hon : lg.is_on = false)
    (hl : lg.current_log = some hh) (ho : lg.original_stdout = .base a) :
    pyOn abspath w i now =
      ({ w with
          stdout := .dual w.nextId (some hh) (.base a) true
          stderr := .dual (w.nextId + 1) (some hh) lg.original_stderr false
          nextId := w.nextId + 2
          loggers := w.loggers.set i { lg with is_on := true } },
       [.writeFile hh (buildStatusMessage abspath lg "resumed" now),
        .flushFile hh,
        .writeStream a (buildStatusMessage abspath lg "resumed" now),
        .flushStream a], none) := by
  simp [pyOn, hg, hon, hl, ho, pyWriteStatus, streamWrite, streamFlush,
    redirectStreams, World.setL]

theorem pyOff_swap (abspath : String → String) (w : World) (i : Nat)
    (lg : Logger) (now : DateTime) (hh a : Nat)
    (hg : w.getL i = some lg) (hon : lg.is_on = true)
    (hl : lg.current_log = some hh) (ho : lg.original_stdout = .base a) :
    pyOff abspath w i now =
      ({ w with
          stdout := lg.original_stdout
          stderr := lg.original_stderr
          loggers := w.loggers.set i { lg with is_on := false } },
       [.writeFile hh (buildStatusMessage abspath lg "paused" now),
        .flushFile hh,
        .writeStream a (buildStatusMessage abspath lg "paused" now),
        .flushStream a], none) := by
  simp [pyOff, hg, hon, hl, ho, pyWriteStatus, streamWrite, streamFlush,
    restoreStreams, World.setL]

theorem toggle_preserves_inv (abspath : String → String) (w : World)
    (i : Nat) (hh a b : Nat) (inv : LoggerInv w i hh a b) (act : Bool)
    (t : DateTime) :
    (if act then pyOn abspath w i t else pyOff abspath w i t).2.2 = none ∧
    LoggerInv (if act then pyOn abspath w i t else pyOff abspath w i t).1
      i hh a b := by
  obtain ⟨lg, hg, hc, hl, ho, he, hw⟩ := inv
  cases act with
  | true =>
    cases hon : lg.is_on with
    | true =>
      rw [if_pos rfl, pyOn_noop abspath w i lg t hg hon]
      exact ⟨writable_pyPrint w _ t hw, lg, hg, hc, hl, ho, he, hw⟩
    | false =>
      rw [if_pos rfl, pyOn_swap abspath w i lg t hh a hg hon hl ho]
      refine ⟨rfl, { lg with is_on := true }, ?_, hc, hl, ho, he, ?_⟩
      · simp only [World.getL]
        exact get?_set_self _ _ lg _ hg
      · simp [writableStream, ho]
  | false =>
    cases hon : lg.is_on with
    | false =>
      rw [if_neg (by simp), pyOff_noop abspath w i lg t hg hon]
      exact ⟨writable_pyPrint w _ t hw, lg, hg, hc, hl, ho, he, hw⟩
    | true =>
      rw [if_neg (by simp), pyOff_swap abspath w i lg t hh a hg hon hl ho]
      refine ⟨rfl, { lg with is_on := false }, ?_, hc, hl, ho, he, ?_⟩
      · simp only [World.getL]
        exact get?_set_self _ _ lg _ hg
      · simp [writableStream, ho]

theorem runToggles_inv (abspath : String → String) (i : Nat)
    (hh a b : Nat) :
    ∀ (acts : List (Bool × DateTime)) (w : World),
      LoggerInv w i hh a b →
      (runToggles abspath w i acts).2 = none ∧
      LoggerInv (runToggles abspath w i acts).1 i hh a b := by
  intro acts
  induction acts with
  | nil => exact fun w inv => ⟨rfl, inv⟩
  | cons p rest ih =>
    intro w inv
    obtain ⟨bt, t⟩ := p
    have step := toggle_preserves_inv abspath w i hh a b inv bt t
    rcases hstep : (if bt then pyOn abspath w i t else pyOff abspath w i t)
      with ⟨w1, evs, err⟩
    rw [hstep] at step
    obtain ⟨herr, hinv⟩ := step
    simp only at herr hinv
    subst herr
    simp only [runToggles, hstep]
    exact ih w1 hinv

theorem pyInit_establishes (abspath : String → String) (w : World) (i : Nat)
    (lg : Logger) (t : DateTime) (a b : Nat)
    (hg : w.getL i = some lg) (hc : lg.is_closed = true)
    (ho : lg.original_stdout = .base a) (he : lg.original_stderr = .base b) :
    (pyInit abspath w i t).2.2 = none ∧
    LoggerInv (pyInit abspath w i t).1 i w.nextId a b := by
  have hres : pyInit abspath w i t =
      ({ w with
          stdout := .dual (w.nextId + 1) (some w.nextId) (.base a) true
          stderr := .dual (w.nextId + 1 + 1) (some w.nextId) (.base b) false
          nextId := w.nextId + 1 + 2
          loggers := (w.loggers.set i
            { lg with current_log := some w.nextId }).set i
            { lg with
                current_log := some w.nextId
                is_closed := false
                is_on := true } },
       [.openFile lg.log_file lg.append w.nextId,
        .writeFile w.nextId
          (buildStatusMessage abspath
            { lg with current_log := some w.nextId } "opened" t),
        .flushFile w.nextId,
        .writeStream a
          (buildStatusMessage abspath
            { lg with current_log := some w.nextId } "opened" t),
        .flushStream a], none) := by
    simp [pyInit, hg, hc, pyWriteStatus, ho, he, streamWrite, streamFlush,
      redirectStreams, World.setL]
  rw [hres]
  refine ⟨rfl,
    { lg with
        current_log := some w.nextId
        is_closed := false
        is_on := true }, ?_, rfl, rfl, ho, he, ?_⟩
  · simp only [World.getL]
    exact get?_set_self _ _ { lg with current_log := some w.nextId } _
      (get?_set_self _ _ lg _ hg)
  · simp [writableStream]

theorem pyClose_restores (abspath : String → String) (w : World) (i : Nat)
    (hh a b : Nat) (t : DateTime) (inv : LoggerInv w i hh a b) :
    (pyClose abspath w i t).2.2 = none ∧
    (pyClose abspath w i t).1.stdout = .base a ∧
    (pyClose abspath w i t).1.stderr = .base b := by
  obtain ⟨lg, hg, hc, hl, ho, he, hw⟩ := inv
  simp only [pyClose, hg, hc]
  simp [pyWriteStatus, hl, ho, he, streamWrite, streamFlush, restoreStreams,
    World.setL, apply_ite World.stdout, apply_ite World.stderr]

/-!
## Claims
-/

/-- Claim C3: writing a string through the stdout tee (`is_stdout = True`)
passes the text unmodified to the console stream; when the text has a
non-whitespace character the file sink additionally receives the text
followed by a newline, a bracketed `YYYY-MM-DD HH:MM:SS` timestamp and a
trailing newline, and is flushed; an empty or whitespace-only text, or any
text written through the stderr tee (`is_stdout = False`), reaches the file
sink verbatim. -/
theorem dualOutput_write_spec (d h n : Nat) (msg : String) (now : DateTime) :
    (hasNonWs msg = true →
      streamWrite (.dual d (some h) (.base n) true) msg now =
        ([.writeStream n msg,
          .writeFile h (msg ++ "\n[" ++ strftimeYmdHMS now ++ "]\n"),
          .flushFile h], none)) ∧
    (hasNonWs msg = false →
      streamWrite (.dual d (some h) (.base n) true) msg now =
        ([.writeStream n msg, .writeFile h msg, .flushFile h], none)) ∧
    streamWrite (.dual d (some h) (.base n) false) msg now =
      ([.writeStream n msg, .writeFile h msg, .flushFile h], none) := by
  refine ⟨fun hws => by simp [streamWrite, hws],
          fun hws => by simp [streamWrite, hws],
          by simp [streamWrite]⟩

/-- Claim C3 witness: the tee behaviour evaluated at `"hello"` (timestamped),
at whitespace-only `"   "` (verbatim) and on the stderr tee (verbatim). -/
theorem dualOutput_write_spec_witness :
    streamWrite (.dual 9 (some 5) (.base 0) true) "hello" sampleTime =
      ([.writeStream 0 "hello",
        .writeFile 5 "hello\n[2024-03-05 10:20:30]\n",
        .flushFile 5], none) ∧
    streamWrite (.dual 9 (some 5) (.base 0) true) "   " sampleTime =
      ([.writeStream 0 "   ", .writeFile 5 "   ", .flushFile 5], none) ∧
    streamWrite (.dual 9 (some 5) (.base 0) false) "hello" sampleTime =
      ([.writeStream 0 "hello", .writeFile 5 "hello", .flushFile 5], none) := by
  refine ⟨?_, ?_, ?_⟩
  · have := (dualOutput_write_spec 9 5 0 "hello" sampleTime).1 (by decide)
    simpa [sampleTime, strftimeYmdHMS, pad2, pad4] using this
  · exact (dualOutput_write_spec 9 5 0 "   " sampleTime).2.1 (by decide)
  · exact (dualOutput_write_spec 9 5 0 "hello" sampleTime).2.2

set_option maxRecDepth 8000 in
/-- Claim C6 counterexample: at a concrete logger, action `"opened"` and clock
reading, the status banner is not the five-part text claimed (separator
line, log line, action line, separator line, blank line): the banner
additionally starts with a newline, i.e. a leading blank line precedes the
first separator. -/
theorem banner_counterexample :
    buildStatusMessage id sampleLogger "opened" sampleTime ≠
      String.mk (List.replicate 130 '-') ++ "\n" ++
        "       log:  /tmp/run.log\n" ++
        " opened on:  05 Mar 2024, 10:20:30\n" ++
        String.mk (List.replicate 130 '-') ++ "\n\n" ∧
    buildStatusMessage id sampleLogger "opened" sampleTime =
      "\n" ++ (String.mk (List.replicate 130 '-') ++ "\n" ++
        "       log:  /tmp/run.log\n" ++
        " opened on:  05 Mar 2024, 10:20:30\n" ++
        String.mk (List.replicate 130 '-') ++ "\n\n") := by
  constructor
  · decide
  · decide

set_option maxRecDepth 8000 in
/-- Claim C6 (amended): for each action in {opened, paused, closed, resumed},
the status banner consists of a leading newline, a 130-character `'-'`
separator line, a line `<indent>log:  <absolute path>` (indent 7 spaces for
opened/paused/closed and 8 for resumed), a line
`␣<action> on:  <dd Mon yyyy, HH:MM:SS>`, a second 130-character separator
line, then a blank line; within their lines, the colon of `log:` (at
character index indent + 3) and the colon of `<action> on:` (at character
index 1 + length action + 3) occupy the same column. -/
theorem banner_format (abspath : String → String) (lg : Logger) (a : String)
    (now : DateTime)
    (ha : a = "opened" ∨ a = "paused" ∨ a = "closed" ∨ a = "resumed") :
    buildStatusMessage abspath lg a now =
      "\n" ++ String.mk (List.replicate 130 '-') ++ "\n" ++
        String.mk (List.replicate (if a = "resumed" then 8 else 7) ' ') ++
        "log:  " ++ abspath lg.log_file ++ "\n" ++
        (" " ++ a) ++ " on:  " ++ strftimeBanner now ++ "\n" ++
        String.mk (List.replicate 130 '-') ++ "\n\n" ∧
    (String.mk (List.replicate 130 '-')).length = 130 ∧
    (if a = "resumed" then 8 else 7) + 3 = 1 + a.length + 3 := by
  refine ⟨rfl, by decide, ?_⟩
  rcases ha with h | h | h | h <;> subst h <;> decide

/-- Claim C6 witness: the amended banner format evaluated for action
`"resumed"` at a concrete logger and clock reading. -/
theorem banner_format_witness :
    buildStatusMessage id sampleLogger "resumed" sampleTime =
      "\n" ++ String.mk (List.replicate 130 '-') ++ "\n" ++
        String.mk (List.replicate 8 ' ') ++
        "log:  " ++ "/tmp/run.log" ++ "\n" ++
        (" " ++ "resumed") ++ " on:  " ++ strftimeBanner sampleTime ++ "\n" ++
        String.mk (List.replicate 130 '-') ++ "\n\n" ∧
    8 + 3 = 1 + "resumed".length + 3 := by
  have h := banner_format id sampleLogger "resumed" sampleTime
    (Or.inr (Or.inr (Or.inr rfl)))
  refine ⟨?_, ?_⟩
  · simpa [sampleLogger] using h.1
  · simpa using h.2.2

/-- Claim C1 counterexample: after one construction, the instance is in the
Uninitialized state — a non-Closed state — yet a second construction
succeeds instead of raising `LogOpenedError`. -/
theorem construct_counterexample :
    pyConstruct id initWorld "a.log" false = .ok (c1World, 0) ∧
    (c1World.getL 0).map loggerState = some .uninitialized ∧
    (pyConstruct id c1World "b.log" false).toOption.isSome = true := by
  exact ⟨rfl, rfl, rfl⟩

/-- Claim C1 (amended): constructing a `BPLIMLogger` while the instance in the
active-logger slot is Active or Paused (`_is_closed = False`) raises
`LogOpenedError` carrying the recorded absolute path of that instance's log
file; constructing while the slot's instance has `_is_closed = True`
(freshly constructed and never initialized, i.e. Uninitialized, or Closed)
succeeds, as does constructing when the slot was released by `close()`. -/
theorem construct_conflict (abspath : String → String) (w : World)
    (path2 : String) (app : Bool) (i : Nat) (lg : Logger) :
    (w.activeLogger = some i → w.getL i = some lg → lg.is_closed = false →
      w.activeLoggerPath = some (abspath lg.log_file) →
      pyConstruct abspath w path2 app =
        .error (.logOpened (some (abspath lg.log_file)))) ∧
    (w.activeLogger = some i → w.getL i = some lg → lg.is_closed = true →
      pyConstruct abspath w path2 app =
        .ok ({ w with
                loggers := w.loggers ++ [freshLogger w path2 app]
                activeLogger := some w.loggers.length
                activeLoggerPath := some (abspath path2) },
             w.loggers.length)) ∧
    (w.activeLogger = none →
      pyConstruct abspath w path2 app =
        .ok ({ w with
                loggers := w.loggers ++ [freshLogger w path2 app]
                activeLogger := some w.loggers.length
                activeLoggerPath := some (abspath path2) },
             w.loggers.length)) := by
  refine ⟨fun hact hg hc hp => ?_, fun hact hg hc => ?_, fun hact => ?_⟩
  · simp [pyConstruct, hact, hg, hc, hp]
  · simp [pyConstruct, hact, hg, hc, freshLogger]
  · simp [pyConstruct, hact, freshLogger]

/-- Claim C1 witness: in a world whose active instance is Active, a second
construction raises `LogOpenedError` carrying `"a.log"`'s absolute path;
after `close()` has released the slot, construction succeeds. -/
theorem construct_conflict_witness :
    pyConstruct id activeWorld "b.log" false =
      .error (.logOpened (some "a.log")) ∧
    (pyConstruct id closedWorld "b.log" false).toOption.isSome = true := by
  constructor
  · exact (construct_conflict id activeWorld "b.log" false 0 activeL).1
      rfl rfl rfl rfl
  · rw [(construct_conflict id closedWorld "b.log" false 0 activeL).2.2 rfl]
    rfl

/-- Claim C2 counterexample: in the trace construct → `init()` → `close()` →
`init()` on one instance, the instance is in the Closed state after
`close()`, yet the second `init()` returns normally — reopening the log
file — instead of raising `AlreadyInitializedError`. -/
theorem reinit_counterexample :
    (c2w3.getL 0).map loggerState = some .closed ∧
    (pyInit id c2w3 0 sampleTime).2.2 = none ∧
    (pyInit id c2w3 0 sampleTime).2.1.head? =
      some (.openFile "log.txt" false 5) := by
  exact ⟨rfl, rfl, rfl⟩

/-- Claim C2 (amended): `init()` raises `AlreadyInitializedError` exactly when
the instance is Active or Paused (`_is_closed = False`), leaving the world
unchanged; when `_is_closed = True` — on a fresh Uninitialized instance, but
equally on a Closed instance after `close()` — `init()` returns normally,
first reopening the log file, so Closed is not terminal with respect to
`init()`. -/
theorem init_raises_iff_active_or_paused (abspath : String → String)
    (w : World) (i : Nat) (lg : Logger) (now : DateTime) (a : Nat)
    (hg : w.getL i = some lg) (ho : lg.original_stdout = .base a) :
    (lg.is_closed = false →
      pyInit abspath w i now = (w, [], some .alreadyInit)) ∧
    (lg.is_closed = true →
      (pyInit abspath w i now).2.2 = none ∧
      (pyInit abspath w i now).2.1.head? =
        some (.openFile lg.log_file lg.append w.nextId)) := by
  constructor
  · intro hc
    simp [pyInit, hg, hc]
  · intro hc
    constructor <;>
      simp [pyInit, hg, hc, pyWriteStatus, ho, streamWrite, streamFlush]

/-- Claim C2 witness: `init()` on an Active instance raises; `init()` on a
Closed instance (after `close()`) returns normally. -/
theorem init_raises_witness :
    pyInit id activeWorld 0 sampleTime =
      (activeWorld, [], some .alreadyInit) ∧
    (pyInit id c2w3 0 sampleTime).2.2 = none := by
  constructor
  · exact (init_raises_iff_active_or_paused id activeWorld 0 activeL
      sampleTime 0 rfl rfl).1 rfl
  · exact ((init_raises_iff_active_or_paused id c2w3 0 closedL
      sampleTime 0 rfl rfl).2 rfl).1

/-- Claim C5: calling `on()` when the logger is already on, or `off()` when it
is already off, returns without raising, writes no banner, performs no
stream swap, and leaves the logger's flags — indeed the whole process
state — unchanged; its only output is the informational `print` message
written through the current standard output. -/
theorem toggle_noop (abspath : String → String) (w : World) (i : Nat)
    (lg : Logger) (now : DateTime)
    (hg : w.getL i = some lg) (hw : writableStream w.stdout = true) :
    (lg.is_on = true →
      pyOn abspath w i now =
        (w, (pyPrint w "Log file already on" now).1, none)) ∧
    (lg.is_on = false →
      pyOff abspath w i now =
        (w, (pyPrint w "Log file already off" now).1, none)) := by
  constructor
  · intro hon
    have he := writable_pyPrint w "Log file already on" now hw
    rcases hp : pyPrint w "Log file already on" now with ⟨evs, err⟩
    rw [hp] at he
    simp only at he
    subst he
    simp [pyOn, hg, hon, hp]
  · intro hoff
    have he := writable_pyPrint w "Log file already off" now hw
    rcases hp : pyPrint w "Log file already off" now with ⟨evs, err⟩
    rw [hp] at he
    simp only at he
    subst he
    simp [pyOff, hg, hoff, hp]

/-- Claim C5 witness: the redundant `on()` on an Active logger and the
redundant `off()` on a Paused logger, each returning the unchanged world,
the informational message events and no exception. -/
theorem toggle_noop_witness :
    pyOn id activeWorld 0 sampleTime =
      (activeWorld, (pyPrint activeWorld "Log file already on" sampleTime).1,
       none) ∧
    pyOff id pausedWorld 0 sampleTime =
      (pausedWorld, (pyPrint pausedWorld "Log file already off" sampleTime).1,
       none) := by
  constructor
  · exact (toggle_noop id activeWorld 0 activeL sampleTime rfl rfl).1 rfl
  · exact (toggle_noop id pausedWorld 0 pausedL sampleTime rfl rfl).2 rfl

/-- Claim C7: `off()` from Active restores the saved original streams into the
standard-stream slots, and `on()` from Paused installs fresh tees wrapping
the still-open file handle; neither toggle emits a file open or close event,
both leave `_current_log` and every world field other than the stream slots,
the identifier allocator and the toggled flag unchanged, and after `off()`
returns, writing to the standard output or standard error slots emits
console events only — nothing further reaches the log file. -/
theorem toggle_swaps_streams_only (abspath : String → String) (w : World)
    (i : Nat) (lg : Logger) (now : DateTime) (h a b : Nat)
    (hg : w.getL i = some lg) (hc : lg.is_closed = false)
    (hl : lg.current_log = some h)
    (ho : lg.original_stdout = .base a) (he : lg.original_stderr = .base b) :
    (lg.is_on = true →
      pyOff abspath w i now =
        ({ w with
            stdout := .base a
            stderr := .base b
            loggers := w.loggers.set i { lg with is_on := false } },
         [.writeFile h (buildStatusMessage abspath lg "paused" now),
          .flushFile h,
          .writeStream a (buildStatusMessage abspath lg "paused" now),
          .flushStream a], none) ∧
      ((pyOff abspath w i now).2.1.all fun e => !isFileLifecycleEv e) = true ∧
      (∀ m t, streamWrite (pyOff abspath w i now).1.stdout m t =
          ([.writeStream a m], none)) ∧
      (∀ m t, streamWrite (pyOff abspath w i now).1.stderr m t =
          ([.writeStream b m], none))) ∧
    (lg.is_on = false →
      pyOn abspath w i now =
        ({ w with
            stdout := .dual w.nextId (some h) (.base a) true
            stderr := .dual (w.nextId + 1) (some h) (.base b) false
            nextId := w.nextId + 2
            loggers := w.loggers.set i { lg with is_on := true } },
         [.writeFile h (buildStatusMessage abspath lg "resumed" now),
          .flushFile h,
          .writeStream a (buildStatusMessage abspath lg "resumed" now),
          .flushStream a], none) ∧
      ((pyOn abspath w i now).2.1.all fun e => !isFileLifecycleEv e) = true) := by
  constructor
  · intro hon
    have hres : pyOff abspath w i now =
        ({ w with
            stdout := .base a
            stderr := .base b
            loggers := w.loggers.set i { lg with is_on := false } },
         [.writeFile h (buildStatusMessage abspath lg "paused" now),
          .flushFile h,
          .writeStream a (buildStatusMessage abspath lg "paused" now),
          .flushStream a], none) := by
      simp [pyOff, hg, hon, hl, ho, he, pyWriteStatus, streamWrite,
        streamFlush, restoreStreams, World.setL]
    refine ⟨hres, ?_, ?_, ?_⟩
    · rw [hres]
      simp [isFileLifecycleEv]
    · intro m t
      rw [hres]
      simp [streamWrite]
    · intro m t
      rw [hres]
      simp [streamWrite]
  · intro hon
    have hres : pyOn abspath w i now =
        ({ w with
            stdout := .dual w.nextId (some h) (.base a) true
            stderr := .dual (w.nextId + 1) (some h) (.base b) false
            nextId := w.nextId + 2
            loggers := w.loggers.set i { lg with is_on := true } },
         [.writeFile h (buildStatusMessage abspath lg "resumed" now),
          .flushFile h,
          .writeStream a (buildStatusMessage abspath lg "resumed" now),
          .flushStream a], none) := by
      simp [pyOn, hg, hon, hl, ho, he, pyWriteStatus, streamWrite,
        streamFlush, redirectStreams, World.setL]
    refine ⟨hres, ?_⟩
    rw [hres]
    simp [isFileLifecycleEv]

/-- Claim C7 witness: `off()` on the Active logger of `activeWorld` restores
the original streams and raises nothing; `on()` on the Paused logger of
`pausedWorld` installs tees wrapping the open handle; neither emits a file
open/close event. -/
theorem toggle_swaps_streams_only_witness :
    (pyOff id activeWorld 0 sampleTime).2.2 = none ∧
    (pyOff id activeWorld 0 sampleTime).1.stdout = .base 0 ∧
    ((pyOff id activeWorld 0 sampleTime).2.1.all
      fun e => !isFileLifecycleEv e) = true ∧
    (pyOn id pausedWorld 0 sampleTime).1.stdout =
      .dual 5 (some 2) (.base 0) true := by
  have h1 := (toggle_swaps_streams_only id activeWorld 0 activeL sampleTime
    2 0 1 rfl rfl rfl rfl rfl).1 rfl
  have h2 := (toggle_swaps_streams_only id pausedWorld 0 pausedL sampleTime
    2 0 1 rfl rfl rfl rfl rfl).2 rfl
  refine ⟨by rw [h1.1], by rw [h1.1], h1.2.1, ?_⟩
  rw [h2.1]
  rfl

/-- Claim C8 counterexample: a caller namespace in which `__file__` is present
but bound to Python `None`.  Before `run_script` the entry exists; after a
`run_script` whose script completes normally without touching it, the entry
has been removed instead of being restored to its pre-call value, because
`dict.get` cannot distinguish an absent marker from one bound to `None`. -/
theorem run_script_counterexample :
    nsLookup [("__file__", Val.pyNone)] "__file__" = some Val.pyNone ∧
    nsLookup
      (@pyRunScript Unit (fun s => s) "s.py" (fun m => (m, none))
        [("__file__", Val.pyNone)]).1 "__file__" = none := by
  exact ⟨rfl, rfl⟩

/-- Claim C8 (amended): whether the executed script completes normally or
raises, `run_script` restores the caller namespace's `__file__` and
`__name__` entries to their pre-call values when those values were not
`None`, and removes them when they were absent or bound to `None`
before the call; the exception raised by the script, if any, propagates
unchanged to the caller after this restoration. -/
theorem run_script_restores_markers {E : Type} (abspath : String → String)
    (sp : String) (script : Namespace → Namespace × Option E)
    (ns : Namespace) :
    (pyRunScript abspath sp script ns).2 =
      (script (preparedNs abspath sp ns)).2 ∧
    nsLookup (pyRunScript abspath sp script ns).1 "__file__" =
      (if nsGet ns "__file__" = Val.pyNone then none
       else some (nsGet ns "__file__")) ∧
    nsLookup (pyRunScript abspath sp script ns).1 "__name__" =
      (if nsGet ns "__name__" = Val.pyNone then none
       else some (nsGet ns "__name__")) := by
  rcases hsc : script (preparedNs abspath sp ns) with ⟨ns2, err⟩
  refine ⟨?_, ?_, ?_⟩
  · simp [pyRunScript, hsc]
  · have hne : "__name__" ≠ "__file__" := by decide
    simp [pyRunScript, hsc, nsLookup_restoreKey_ne _ _ _ _ hne,
      nsLookup_restoreKey_self]
  · simp [pyRunScript, hsc, nsLookup_restoreKey_self]

/-- Claim C10: the namespace against which `run_script` executes the compiled
script binds `__name__` to `"__main__"` and `__file__` to the absolute form
of the script path, so an entry-point-guarded script runs as if it were the
program entry point; `run_script` applies the script to exactly this
prepared namespace (witnessed here through its propagated result). -/
theorem run_script_executes_as_main {E : Type} (abspath : String → String)
    (sp : String) (script : Namespace → Namespace × Option E)
    (ns : Namespace) :
    nsLookup (preparedNs abspath sp ns) "__name__" =
      some (.str "__main__") ∧
    nsLookup (preparedNs abspath sp ns) "__file__" =
      some (.str (abspath sp)) ∧
    pyRunScript abspath sp script ns =
      (restoreKey
        (restoreKey (script (preparedNs abspath sp ns)).1 "__file__"
          (nsGet ns "__file__"))
        "__name__" (nsGet ns "__name__"),
       (script (preparedNs abspath sp ns)).2) := by
  refine ⟨?_, ?_, ?_⟩
  · exact nsLookup_nsSet_self _ _ _
  · have hne : "__name__" ≠ "__file__" := by decide
    rw [preparedNs, nsLookup_nsSet_ne _ _ _ _ hne, nsLookup_nsSet_self]
  · rcases hsc : script (preparedNs abspath sp ns) with ⟨ns2, err⟩
    simp [pyRunScript, hsc]

/-- Claim C4: for every run construct → `init()` → any finite sequence of
`on()`/`off()` toggles → `close()` (with ordinary streams installed before
construction), every step returns without raising, and after `close()`
returns the process's standard output and standard error slots hold exactly
(by reference) the stream objects that were installed immediately before the
construction. -/
theorem close_restores_original_streams (abspath : String → String)
    (w0 : World) (path : String) (app : Bool) (a b : Nat)
    (acts : List (Bool × DateTime)) (t0 tc : DateTime)
    (ha : w0.activeLogger = none)
    (hs : w0.stdout = .base a) (he : w0.stderr = .base b) :
    ∃ w1 i, pyConstruct abspath w0 path app = .ok (w1, i) ∧
      (pyInit abspath w1 i t0).2.2 = none ∧
      (runToggles abspath (pyInit abspath w1 i t0).1 i acts).2 = none ∧
      (pyClose abspath
        (runToggles abspath (pyInit abspath w1 i t0).1 i acts).1 i tc).2.2 =
        none ∧
      (pyClose abspath
        (runToggles abspath (pyInit abspath w1 i t0).1 i acts).1 i
          tc).1.stdout = w0.stdout ∧
      (pyClose abspath
        (runToggles abspath (pyInit abspath w1 i t0).1 i acts).1 i
          tc).1.stderr = w0.stderr := by
  refine ⟨_, _, construct_fresh abspath w0 path app ha, ?_⟩
  have hg1 : (({ w0 with
      loggers := w0.loggers ++ [freshLogger w0 path app]
      activeLogger := some w0.loggers.length
      activeLoggerPath := some (abspath path) } : World)).getL
      w0.loggers.length = some (freshLogger w0 path app) := by
    show (w0.loggers ++ [freshLogger w0 path app]).get? w0.loggers.length =
      some (freshLogger w0 path app)
    exact get?_append_length _ _
  obtain ⟨hie, hinv⟩ := pyInit_establishes abspath _ w0.loggers.length
    (freshLogger w0 path app) t0 a b hg1 rfl
    (by simp [freshLogger, hs]) (by simp [freshLogger, he])
  obtain ⟨hte, hinv2⟩ := runToggles_inv abspath w0.loggers.length _ a b acts
    _ hinv
  have hclose := pyClose_restores abspath _ w0.loggers.length _ a b tc hinv2
  exact ⟨hie, hte, hclose.1, by rw [hclose.2.1, hs], by rw [hclose.2.2, he]⟩

/-- Claim C4 witness: the concrete run construct → `init()` → `off()` →
`on()` → `close()` from a fresh process state, ending with the original
streams `base 0`/`base 1` back in the slots. -/
theorem close_restores_original_streams_witness :
    ∃ w1 i, pyConstruct id initWorld "a.log" false = .ok (w1, i) ∧
      (pyInit id w1 i sampleTime).2.2 = none ∧
      (runToggles id (pyInit id w1 i sampleTime).1 i
        [(false, sampleTime), (true, sampleTime)]).2 = none ∧
      (pyClose id (runToggles id (pyInit id w1 i sampleTime).1 i
        [(false, sampleTime), (true, sampleTime)]).1 i sampleTime).2.2 =
        none ∧
      (pyClose id (runToggles id (pyInit id w1 i sampleTime).1 i
        [(false, sampleTime), (true, sampleTime)]).1 i sampleTime).1.stdout =
        initWorld.stdout ∧
      (pyClose id (runToggles id (pyInit id w1 i sampleTime).1 i
        [(false, sampleTime), (true, sampleTime)]).1 i sampleTime).1.stderr =
        initWorld.stderr :=
  close_restores_original_streams id initWorld "a.log" false 0 1
    [(false, sampleTime), (true, sampleTime)] sampleTime sampleTime
    rfl rfl rfl

/-- Claim C9: calling `on()` on a freshly constructed logger on which `init()`
never ran (flags `_is_closed = True`, `_is_on = False`, no file handle)
returns without raising: it writes the `"resumed"` banner to the original
console stream only (no file events), installs `DualOutput` tees whose file
sink is `None` into the standard output and error slots, and sets
`_is_on = True` while `_is_closed` stays `True`; any subsequent write
through the redirected standard output raises `AttributeError` because the
file sink is absent, and a following `close()` returns immediately without
restoring the original streams. -/
theorem on_before_init (abspath : String → String) (w : World) (i : Nat)
    (lg : Logger) (t t' : DateTime) (a b : Nat)
    (hg : w.getL i = some lg)
    (hclosed : lg.is_closed = true) (hon : lg.is_on = false)
    (hl : lg.current_log = none)
    (ho : lg.original_stdout = .base a) (he : lg.original_stderr = .base b) :
    (pyOn abspath w i t).2.2 = none ∧
    (pyOn abspath w i t).2.1 =
      [.writeStream a (buildStatusMessage abspath lg "resumed" t),
       .flushStream a] ∧
    (pyOn abspath w i t).1.stdout = .dual w.nextId none (.base a) true ∧
    (pyOn abspath w i t).1.stderr =
      .dual (w.nextId + 1) none (.base b) false ∧
    (pyOn abspath w i t).1.getL i = some { lg with is_on := true } ∧
    (∀ m, (streamWrite (pyOn abspath w i t).1.stdout m t').2 =
      some .attrNone) ∧
    pyClose abspath (pyOn abspath w i t).1 i t' =
      ((pyOn abspath w i t).1, [], none) := by
  have hres : pyOn abspath w i t =
      ({ w with
          stdout := .dual w.nextId none (.base a) true
          stderr := .dual (w.nextId + 1) none (.base b) false
          nextId := w.nextId + 2
          loggers := w.loggers.set i { lg with is_on := true } },
       [.writeStream a (buildStatusMessage abspath lg "resumed" t),
        .flushStream a], none) := by
    simp [pyOn, hg, hon, hl, ho, he, pyWriteStatus, streamWrite, streamFlush,
      redirectStreams, World.setL]
  have hget : (pyOn abspath w i t).1.getL i =
      some { lg with is_on := true } := by
    rw [hres]
    show (w.loggers.set i { lg with is_on := true }).get? i =
      some { lg with is_on := true }
    exact get?_set_self _ _ lg _ hg
  have hclose : pyClose abspath (pyOn abspath w i t).1 i t' =
      ((pyOn abspath w i t).1, [], none) := by
    simp only [pyClose, hget]
    simp [hclosed]
  refine ⟨by rw [hres], by rw [hres], by rw [hres], by rw [hres], hget,
    ?_, hclose⟩
  intro m
  rw [hres]
  simp [streamWrite]

/-- Claim C9 witness: `on()` on the never-initialized instance of `c1World`
raises nothing, installs a file-less tee as standard output, after which a
write through that tee raises `AttributeError` and `close()` is a no-op. -/
theorem on_before_init_witness :
    (pyOn id c1World 0 sampleTime).2.2 = none ∧
    (pyOn id c1World 0 sampleTime).1.stdout = .dual 2 none (.base 0) true ∧
    (streamWrite (pyOn id c1World 0 sampleTime).1.stdout "x" sampleTime).2 =
      some .attrNone ∧
    pyClose id (pyOn id c1World 0 sampleTime).1 0 sampleTime =
      ((pyOn id c1World 0 sampleTime).1, [], none) := by
  have hthm := on_before_init id c1World 0 uninitL sampleTime sampleTime 0 1
    rfl rfl rfl rfl rfl rfl
  exact ⟨hthm.1, hthm.2.2.1, hthm.2.2.2.2.2.1 "x", hthm.2.2.2.2.2.2⟩

end BplimUtils
